import Mathlib

/-!
Verification of the Finitii frontend against its natural-language
specification.

The definitions below are shallow embeddings of the TypeScript sources of
the repository: frontend/lib/api.ts, frontend/lib/sample-transactions.ts,
frontend/app/onboarding/page.tsx, frontend/app/home/page.tsx and the
Next.js middleware. JavaScript string-or-null values are modelled as
Option String; the JavaScript truthiness test on such a value (null and
the empty string are falsy) is jsTruthy. The backend itself is not part
of the repository, so its Top 3 ranking policy and the First Win
milestone are modelled from the specification text; those definitions
say so in their doc comments.
-/

/-- JavaScript truthiness of a string-or-null value: null and the empty
string are falsy, every other string is truthy. -/
def jsTruthy : Option String → Bool
  | none => false
  | some s => s != ""

/-- JavaScript a || b on string-or-null values: yields a when a is truthy,
otherwise b. -/
def jsStrOr (a b : Option String) : Option String :=
  if jsTruthy a then a else b

namespace Api

/-- The error shape thrown by the API client (interface ApiError in
frontend/lib/api.ts). -/
structure ApiError where
  message : String
  requestId : Option String
  status : Nat
deriving DecidableEq

/-- The fields of a standardized JSON error envelope that the request
function reads from a non-2xx body (body.detail and body.message); a field
that is absent or not a string is none. -/
structure ErrorBody where
  detail : Option String
  message : Option String
deriving DecidableEq

/-- An HTTP response as the client sees it: status code, response headers,
and the parsed JSON body (none when the body is absent or not valid JSON). -/
structure HttpResponse where
  status : Nat
  headers : List (String × String)
  body : Option ErrorBody
deriving DecidableEq

/-- Outcome of one call to the request function in frontend/lib/api.ts: a
successful return value (null data for 204), a thrown ApiError, or the
exception propagated from res.json() when the body of a 2xx response other
than 204 is not valid JSON. -/
inductive RequestResult where
  | success (body : Option ErrorBody)
  | apiError (e : ApiError)
  | jsonError
deriving DecidableEq

/-- Response.ok of the fetch API: the status is in the range 200..299. -/
def resOk (status : Nat) : Bool :=
  decide (200 ≤ status) && decide (status ≤ 299)

/-- The request id the request function reads from a response:
res.headers.get("x-request-id") || res.headers.get("X-Request-ID").
Header lookup is modelled by exact name. -/
def responseRequestId (headers : List (String × String)) : Option String :=
  jsStrOr (List.lookup "x-request-id" headers) (List.lookup "X-Request-ID" headers)

/-- The default error message of the request function for a non-2xx
status. -/
def defaultErrMessage (status : Nat) : String :=
  "Request failed (" ++ toString status ++ ")"

/-- The error message the request function picks for a non-2xx response:
body.detail || body.message || the default, where a missing or invalid JSON
body keeps the default. -/
def errMessage (status : Nat) (body : Option ErrorBody) : String :=
  match body with
  | none => defaultErrMessage status
  | some b =>
      (jsStrOr (jsStrOr b.detail b.message) (some (defaultErrMessage status))).getD
        (defaultErrMessage status)

/-- Shallow embedding of the request function in frontend/lib/api.ts applied
to a received HTTP response (the fetch itself succeeded): read the request
id, throw an ApiError for a non-2xx status, return null data for 204, and
otherwise return the parsed JSON body (res.json() throws when it is not
valid JSON). -/
def request (resp : HttpResponse) : RequestResult :=
  let requestId := responseRequestId resp.headers
  if resOk resp.status then
    if resp.status = 204 then .success none
    else
      match resp.body with
      | some b => .success (some b)
      | none => .jsonError
  else
    .apiError { message := errMessage resp.status resp.body
                requestId := requestId
                status := resp.status }

/-- One fetch attempt: either the network layer fails (fetch throws a
TypeError) or a response arrives. -/
inductive FetchOutcome where
  | networkFailure
  | response (r : HttpResponse)
deriving DecidableEq

/-- The network-failure message of the request function; the hint is
appended when the configured base URL contains "localhost". -/
def networkFailureMessage (baseIsLocalhost : Bool) : String :=
  "Cannot reach the server." ++
    (if baseIsLocalhost then
      " Check that NEXT_PUBLIC_API_BASE_URL is set to your backend URL."
    else "")

/-- Shallow embedding of the request function including the try/catch
around fetch: a network failure throws an ApiError with status 0 and a null
request id. -/
def requestRun (baseIsLocalhost : Bool) : FetchOutcome → RequestResult
  | .networkFailure =>
      .apiError { message := networkFailureMessage baseIsLocalhost
                  requestId := none
                  status := 0 }
  | .response r => request r

/-- True when the request function throws rather than returning. -/
def isThrow : RequestResult → Bool
  | .success _ => false
  | .apiError _ => true
  | .jsonError => true

/-- A JavaScript runtime value, as far as the isApiError guard inspects
one. -/
inductive JsValue where
  | jsNull
  | undef
  | str (s : String)
  | num (n : Int)
  | boolean (b : Bool)
  | obj (fields : List (String × JsValue))

/-- The expression (name in e) used by isApiError: the object has a field
with that name. -/
def hasField (fields : List (String × JsValue)) (name : String) : Bool :=
  (List.lookup name fields).isSome

/-- Shallow embedding of isApiError in frontend/lib/api.ts: the value is an
object, is not null, and has both a message and a status field. -/
def isApiError : JsValue → Bool
  | .obj fields => hasField fields "message" && hasField fields "status"
  | _ => false

/-- The runtime object an ApiError record denotes when thrown: an object
literal with fields message, requestId and status. -/
def apiErrorToJs (e : ApiError) : JsValue :=
  .obj [("message", .str e.message),
        ("requestId", match e.requestId with | some s => .str s | none => .jsNull),
        ("status", .num (Int.ofNat e.status))]

/-- The runtime object thrown by res.json() when a response body is not
valid JSON: a SyntaxError, that is an Error object with name, message and
stack fields but no status field. The message and stack texts depend on the
JavaScript engine, so they are parameters. -/
def syntaxErrorToJs (msg stack : String) : JsValue :=
  .obj [("name", .str "SyntaxError"),
        ("message", .str msg),
        ("stack", .str stack)]

/-- Browser-side client state for the token helpers in frontend/lib/api.ts:
whether window is defined, the localStorage entry session_token, and the
session_token cookie. -/
structure ClientState where
  windowDefined : Bool
  localStore : Option String
  cookie : Option String
deriving DecidableEq

/-- getToken in api.ts: null outside a browser, otherwise
localStorage.getItem("session_token"). -/
def getToken (s : ClientState) : Option String :=
  if s.windowDefined then s.localStore else none

/-- setToken in api.ts: store the token in localStorage and also set the
cookie for the middleware. -/
def setToken (t : String) (s : ClientState) : ClientState :=
  { s with localStore := some t, cookie := some t }

/-- clearToken in api.ts: remove the localStorage entry and expire the
cookie. -/
def clearToken (s : ClientState) : ClientState :=
  { s with localStore := none, cookie := none }

/-- hasToken in api.ts: double negation of getToken, that is JavaScript
truthiness of the stored value. -/
def hasToken (s : ClientState) : Bool :=
  jsTruthy (getToken s)

/-- The headers the request function sends: Content-Type always, and
X-Session-Token exactly when getToken() is truthy. -/
def requestHeaders (s : ClientState) : List (String × String) :=
  let base := [("Content-Type", "application/json")]
  if jsTruthy (getToken s) then
    base ++ [("X-Session-Token", (getToken s).getD "")]
  else base

end Api

namespace Middleware

/-- Result of the Next.js middleware: pass the request through unchanged,
or redirect to another location. -/
inductive MwResult where
  | next
  | redirect (location : String)
deriving DecidableEq

/-- A request as the middleware sees it: its path and its cookies. -/
structure MwRequest where
  path : String
  cookies : List (String × String)
deriving DecidableEq

/-- Shallow embedding of the middleware function in middleware.ts: redirect
to /login when the session_token cookie is absent, otherwise let the request
proceed unchanged. -/
def middleware (req : MwRequest) : MwResult :=
  match List.lookup "session_token" req.cookies with
  | none => .redirect "/login"
  | some _ => .next

/-- The route matcher of the middleware config:
/home, /settings, /onboarding and /cheat with any further segments. -/
def matchesConfig (path : String) : Bool :=
  path == "/home" || path == "/settings" || path == "/onboarding" ||
    path == "/cheat" || path.startsWith "/cheat/"

/-- Next.js routing: the middleware runs only on the paths selected by the
config matcher; every other request proceeds untouched. -/
def handleRequest (req : MwRequest) : MwResult :=
  if matchesConfig req.path then middleware req else .next

end Middleware

namespace SampleTxns

/-- One entry of SAMPLE_TRANSACTIONS in frontend/lib/sample-transactions.ts.
Amounts are modelled as exact rationals. -/
structure SampleTxn where
  raw_description : String
  amount : ℚ
  transaction_type : String
  days_ago : Nat
deriving DecidableEq

/-- SAMPLE_TRANSACTIONS from frontend/lib/sample-transactions.ts. -/
def SAMPLE_TRANSACTIONS : List SampleTxn :=
  [ { raw_description := "PAYROLL EMPLOYER INC", amount := 2500.0, transaction_type := "credit", days_ago := 1 },
    { raw_description := "RENT PAYMENT FEB", amount := 1100.0, transaction_type := "debit", days_ago := 1 },
    { raw_description := "GROCERY MART", amount := 85.5, transaction_type := "debit", days_ago := 2 },
    { raw_description := "NETFLIX.COM", amount := 15.99, transaction_type := "debit", days_ago := 3 },
    { raw_description := "SPOTIFY USA", amount := 11.99, transaction_type := "debit", days_ago := 3 },
    { raw_description := "GAS STATION", amount := 45.0, transaction_type := "debit", days_ago := 4 },
    { raw_description := "PHARMACY CVS", amount := 22.0, transaction_type := "debit", days_ago := 5 },
    { raw_description := "COFFEE SHOP", amount := 5.5, transaction_type := "debit", days_ago := 5 },
    { raw_description := "ELECTRIC COMPANY", amount := 95.0, transaction_type := "debit", days_ago := 6 },
    { raw_description := "CELL PHONE BILL", amount := 65.0, transaction_type := "debit", days_ago := 7 } ]

/-- The POST /transactions payload built for one sample entry. The ISO date
string for new Date() minus days_ago is modelled as the integer day
now - days_ago. -/
structure TxnPayload where
  account_id : String
  raw_description : String
  amount : ℚ
  transaction_type : String
  transaction_date : Int
  currency : String
deriving DecidableEq

/-- Shallow embedding of buildTransactionPayload in
frontend/lib/sample-transactions.ts. -/
def buildTransactionPayload (now : Int) (accountId : String) : List TxnPayload :=
  SAMPLE_TRANSACTIONS.map fun t =>
    { account_id := accountId
      raw_description := t.raw_description
      amount := t.amount
      transaction_type := t.transaction_type
      transaction_date := now - (t.days_ago : Int)
      currency := "USD" }

end SampleTxns

namespace Home

/-- The onboarding state the home page reads from GET /onboarding/state. -/
structure OnbState where
  first_win_completed_at : Option String
  current_step : String
deriving DecidableEq

/-- What the home page decides after reading the onboarding state. -/
inductive HomeAction where
  | redirectOnboarding
  | loadDashboard
deriving DecidableEq

/-- Shallow embedding of checkOnboardingAndLoad in
frontend/app/home/page.tsx: when the guard
!state.first_win_completed_at && state.current_step !== "completed" holds,
the page redirects to /onboarding and returns; only the other branch goes
on to fetch /forecast/latest and /cheat-codes/recommendations. The second
component lists the API paths requested. -/
def homeLoad (st : OnbState) : HomeAction × List String :=
  if !jsTruthy st.first_win_completed_at && (st.current_step != "completed") then
    (.redirectOnboarding, ["/onboarding/state"])
  else
    (.loadDashboard, ["/onboarding/state", "/forecast/latest", "/cheat-codes/recommendations"])

/-- Modelled from the spec: the backend guided-run state that decides First
Win (the backend source is not part of the repository). It counts the
completed guided action steps and records whether First Win was reached. -/
structure RunState where
  completedSteps : Nat
  firstWin : Bool
deriving DecidableEq

/-- Modelled from the spec: a fresh guided run has no completed step and
First Win not yet reached. -/
def initRun : RunState :=
  { completedSteps := 0, firstWin := false }

/-- Modelled from the spec: the only guided-run event relevant to First Win
is completing one guided action step. -/
inductive RunAct where
  | completeStep
deriving DecidableEq

/-- Modelled from the spec: First Win is the onboarding milestone reached
after completing one guided action step, so completing a step increments the
completed count and marks First Win reached. -/
def runStep (r : RunState) : RunAct → RunState
  | .completeStep => { completedSteps := r.completedSteps + 1, firstWin := true }

end Home

namespace Onboarding

/-- The component state of the onboarding wizard in
frontend/app/onboarding/page.tsx that takes part in step gating: the step
index into STEPS = [Consent, Account, Transactions, Goals, Top 3] and the
form fields read by the handlers and by the disabled conditions of the
Continue button. -/
structure WizardState where
  step : Nat
  consentData : Bool
  consentTerms : Bool
  consentAi : Bool
  institution : String
  acctName : String
  balance : String
  txnCount : Nat
  goalType : String
  constraintLabel : String
  constraints : List String
deriving DecidableEq

/-- The initial useState values of the wizard. -/
def initialWizard : WizardState :=
  { step := 0
    consentData := false
    consentTerms := false
    consentAi := false
    institution := ""
    acctName := ""
    balance := ""
    txnCount := 0
    goalType := "build_emergency_fund"
    constraintLabel := ""
    constraints := [] }

/-- A user event on the wizard page. API calls inside a handler either all
succeed or the handler lands in its catch block; the Boolean argument of an
action that performs API calls records which of the two happened. -/
inductive Action where
  | setConsentData (b : Bool)
  | setConsentTerms (b : Bool)
  | setConsentAi (b : Bool)
  | setInstitution (v : String)
  | setAcctName (v : String)
  | setBalance (v : String)
  | setGoalType (v : String)
  | setConstraintLabel (v : String)
  | addSampleTxns (ok : Bool)
  | addConstraint (ok : Bool)
  | clickContinue (ok : Bool)
  | clickStart (ok : Bool)
deriving DecidableEq

/-- Whether the Continue button of the current step is enabled, from the
disabled attributes in page.tsx (the transient loading flag is not
modelled because each handler is modelled as one atomic action):
consent needs both required checkboxes, account needs a truthy institution
and account name, transactions needs a nonzero transaction count, goals is
always enabled, and the Top 3 step has no Continue button. -/
def continueEnabled (s : WizardState) : Bool :=
  if s.step = 0 then s.consentData && s.consentTerms
  else if s.step = 1 then (s.institution != "") && (s.acctName != "")
  else if s.step = 2 then s.txnCount != 0
  else if s.step = 3 then true
  else false

/-- The consent_type values POSTed to /consent/grant by submitConsent, in
order (lines 97-99 of page.tsx): one POST per checked checkbox. -/
def submitConsentPosts (s : WizardState) : List String :=
  (if s.consentData then ["data_access"] else []) ++
  (if s.consentTerms then ["terms_of_service"] else []) ++
  (if s.consentAi then ["ai_memory"] else [])

/-- Shallow embedding of the event handlers of the onboarding wizard. The
setters mirror the controlled inputs; addSampleTxns sets the transaction
count to the number of sample payloads after all ten POSTs succeed;
addConstraint mirrors its guard on the trimmed label; clickContinue runs
the submit handler of the current step, which advances the step index by
one exactly when the button is enabled and every API call succeeds;
clickStart navigates away without touching the wizard state. -/
def stepAction (s : WizardState) : Action → WizardState
  | .setConsentData b => { s with consentData := b }
  | .setConsentTerms b => { s with consentTerms := b }
  | .setConsentAi b => { s with consentAi := b }
  | .setInstitution v => { s with institution := v }
  | .setAcctName v => { s with acctName := v }
  | .setBalance v => { s with balance := v }
  | .setGoalType v => { s with goalType := v }
  | .setConstraintLabel v => { s with constraintLabel := v }
  | .addSampleTxns ok =>
      if s.step = 2 && ok then { s with txnCount := 10 } else s
  | .addConstraint ok =>
      if s.constraintLabel.trim == "" then s
      else if ok then
        { s with constraints := s.constraints ++ [s.constraintLabel.trim]
                 constraintLabel := "" }
      else s
  | .clickContinue ok =>
      if continueEnabled s && ok then { s with step := s.step + 1 } else s
  | .clickStart _ => s

end Onboarding

namespace Ranking

/-- Recommendation confidence levels. -/
inductive Confidence where
  | low
  | medium
  | high
deriving DecidableEq

/-- A ranking candidate: confidence, urgency score and quick-win flag. -/
structure Candidate where
  confidence : Confidence
  urgency_score : Nat
  is_quick_win : Bool
deriving DecidableEq

/-- Ranking order on candidates: higher urgency score first. -/
def rankRel (a b : Candidate) : Prop :=
  b.urgency_score ≤ a.urgency_score

instance : DecidableRel rankRel := fun a b => Nat.decLe b.urgency_score a.urgency_score

/-- Modelled from the spec: the first stage of the backend Top 3 ranking
policy (the backend source is not included in the repository), quoting the
spec: drop low-confidence candidates before ranking. -/
def lowFiltered (cands : List Candidate) : List Candidate :=
  cands.filter fun c => decide (c.confidence ≠ Confidence.low)

/-- Modelled from the spec: the surviving candidates ranked by urgency
score. -/
def sortedPool (cands : List Candidate) : List Candidate :=
  List.insertionSort rankRel (lowFiltered cands)

/-- Modelled from the spec: the top three of the ranked pool. -/
def rawTop (cands : List Candidate) : List Candidate :=
  (sortedPool cands).take 3

/-- Modelled from the spec: the quick-win candidates of the ranked pool, in
rank order. -/
def quickWins (cands : List Candidate) : List Candidate :=
  (sortedPool cands).filter fun c => c.is_quick_win

/-- Modelled from the spec: the backend Top 3 ranking policy (the backend
source is not included in the repository), quoting the spec: drop
low-confidence candidates before ranking, guarantee at least one quick win
in the final three, urgency score must never promote a low-confidence
candidate. Candidates are ranked by urgency; when the top three contain no
quick win and the filtered pool has one, the highest-ranking quick win
replaces the last of the three. -/
def rankTop3 (cands : List Candidate) : List Candidate :=
  if (rawTop cands).any (fun c => c.is_quick_win) then rawTop cands
  else
    match quickWins cands with
    | [] => rawTop cands
    | q :: _ => (rawTop cands).dropLast ++ [q]

end Ranking

namespace Ranking

theorem mem_lowFiltered_of_mem_rawTop {cands : List Candidate} {c : Candidate}
    (h : c ∈ rawTop cands) : c ∈ lowFiltered cands := by
  have h1 : c ∈ sortedPool cands := List.take_subset 3 (sortedPool cands) h
  simpa [sortedPool, List.mem_insertionSort] using h1

theorem mem_lowFiltered_of_mem_rankTop3 {cands : List Candidate} {c : Candidate}
    (h : c ∈ rankTop3 cands) : c ∈ lowFiltered cands := by
  unfold rankTop3 at h
  split at h
  · exact mem_lowFiltered_of_mem_rawTop h
  · split at h
    · exact mem_lowFiltered_of_mem_rawTop h
    · rename_i q rest hq
      rcases List.mem_append.1 h with h1 | h2
      · exact mem_lowFiltered_of_mem_rawTop (List.dropLast_subset _ h1)
      · have hcq : c = q := by simpa using h2
        subst hcq
        have hq2 : c ∈ quickWins cands := by
          rw [hq]; exact List.mem_cons_self c rest
        have h3 : c ∈ sortedPool cands := (List.mem_filter.1 hq2).1
        simpa [sortedPool, List.mem_insertionSort] using h3

/-- C1: for every generated Top 3 list, no item has confidence low, even
when the urgency score of a candidate is at its maximum: low-confidence
candidates are dropped before ranking, and no urgency score (the statement
quantifies over all of them) can put a low-confidence candidate into the
result of rankTop3. -/
theorem top3_never_low_confidence :
    ∀ (cands : List Candidate), ∀ c ∈ rankTop3 cands,
      c.confidence ≠ Confidence.low := by
  intro cands c hc
  have h2 := mem_lowFiltered_of_mem_rankTop3 hc
  have h3 := List.mem_filter.1 h2
  exact of_decide_eq_true h3.2

/-- Witness for C1 at a concrete input. -/
theorem top3_never_low_confidence_witness :
    (Candidate.mk Confidence.high 100 true).confidence ≠ Confidence.low :=
  top3_never_low_confidence [Candidate.mk Confidence.high 100 true]
    (Candidate.mk Confidence.high 100 true) (by decide)

end Ranking

namespace Ranking

/-- C2: every final Top 3 list contains at least one recommendation flagged
as a quick win. Since the policy may only select candidates, the statement
assumes that at least one non-low-confidence quick-win candidate exists in
the input. -/
theorem top3_includes_quick_win :
    ∀ (cands : List Candidate),
      (∃ c ∈ cands, c.confidence ≠ Confidence.low ∧ c.is_quick_win = true) →
      ∃ r ∈ rankTop3 cands, r.is_quick_win = true := by
  intro cands h
  obtain ⟨c, hc, hlow, hqw⟩ := h
  have hpool : c ∈ lowFiltered cands :=
    List.mem_filter.2 ⟨hc, decide_eq_true hlow⟩
  have hsorted : c ∈ sortedPool cands := by
    simpa [sortedPool, List.mem_insertionSort] using hpool
  have hqws : c ∈ quickWins cands := List.mem_filter.2 ⟨hsorted, hqw⟩
  by_cases hany : (rawTop cands).any (fun x => x.is_quick_win) = true
  · obtain ⟨r, hr, hrq⟩ := List.any_eq_true.1 hany
    refine ⟨r, ?_, hrq⟩
    simp only [rankTop3, hany, if_true]
    exact hr
  · have hanyf : (rawTop cands).any (fun x => x.is_quick_win) = false := by
      simpa using hany
    cases hq : quickWins cands with
    | nil =>
      rw [hq] at hqws
      cases hqws
    | cons q rest =>
      refine ⟨q, ?_, ?_⟩
      · simp [rankTop3, hanyf, hq]
      · have hql : q ∈ quickWins cands := by
          rw [hq]; exact List.mem_cons_self q rest
        exact (List.mem_filter.1 hql).2

/-- Witness for C2 at a concrete input. -/
theorem top3_includes_quick_win_witness :
    ∃ r ∈ rankTop3 [Candidate.mk Confidence.high 1 true], r.is_quick_win = true :=
  top3_includes_quick_win [Candidate.mk Confidence.high 1 true]
    ⟨Candidate.mk Confidence.high 1 true, by decide, by decide, rfl⟩

end Ranking

namespace Onboarding

/-- C3: AI-memory consent defaults to off: the checkbox state starts
unchecked, submitConsent issues a POST to /consent/grant with consent_type
ai_memory exactly when the checkbox state is checked, and no handler other
than the AI-memory checkbox itself ever changes that state, so advancing
past the consent step never grants ai_memory otherwise. -/
theorem ai_memory_consent_defaults_off :
    initialWizard.consentAi = false ∧
    (∀ s : WizardState, "ai_memory" ∈ submitConsentPosts s ↔ s.consentAi = true) ∧
    (∀ (s : WizardState) (a : Action), (∀ b, a ≠ Action.setConsentAi b) →
      (stepAction s a).consentAi = s.consentAi) := by
  refine ⟨rfl, ?_, ?_⟩
  · intro s
    simp only [submitConsentPosts]
    cases hcd : s.consentData <;> cases hct : s.consentTerms <;>
      cases hcai : s.consentAi <;> decide
  · intro s a hne
    cases a <;>
      first
        | rfl
        | exact absurd rfl (hne _)
        | (simp only [stepAction]; (repeat' split); all_goals rfl)

/-- Witness for C3 at a concrete state and action. -/
theorem ai_memory_consent_defaults_off_witness :
    (stepAction initialWizard (Action.setConsentData true)).consentAi =
      initialWizard.consentAi :=
  ai_memory_consent_defaults_off.2.2 initialWizard (Action.setConsentData true)
    (by decide)

theorem continueEnabled_false_of_ge (s : WizardState) (h : 4 ≤ s.step) :
    continueEnabled s = false := by
  have h0 : ¬ s.step = 0 := by omega
  have h1 : ¬ s.step = 1 := by omega
  have h2 : ¬ s.step = 2 := by omega
  have h3 : ¬ s.step = 3 := by omega
  simp [continueEnabled, h0, h1, h2, h3]

theorem stepAction_step_eq (s : WizardState) (a : Action) :
    (stepAction s a).step = s.step ∨
      (a = Action.clickContinue true ∧ continueEnabled s = true ∧
        (stepAction s a).step = s.step + 1) := by
  cases a with
  | setConsentData b => exact Or.inl rfl
  | setConsentTerms b => exact Or.inl rfl
  | setConsentAi b => exact Or.inl rfl
  | setInstitution v => exact Or.inl rfl
  | setAcctName v => exact Or.inl rfl
  | setBalance v => exact Or.inl rfl
  | setGoalType v => exact Or.inl rfl
  | setConstraintLabel v => exact Or.inl rfl
  | addSampleTxns ok =>
      left; simp only [stepAction]; split <;> rfl
  | addConstraint ok =>
      left; simp only [stepAction]; (repeat' split) <;> rfl
  | clickStart ok => exact Or.inl rfl
  | clickContinue ok =>
      by_cases h : (continueEnabled s && ok) = true
      · have hh : continueEnabled s = true ∧ ok = true := by simpa using h
        rcases hh with ⟨h1, h2⟩
        subst h2
        refine Or.inr ⟨rfl, h1, ?_⟩
        simp [stepAction, h1]
      · have h2 : (continueEnabled s && ok) = false := by simpa using h
        left
        simp [stepAction, h2]

/-- C5: the onboarding wizard is a finite linear sequence with no
backtracking: every action keeps the step index in 0..4 and moves it
forward by at most one; the index changes only on a successful Continue
click with the button of the current step enabled, and then by exactly one;
and with the two required consents not both checked the consent step cannot
be submitted at all. -/
theorem wizard_linear_forward :
    ∀ (s : WizardState) (a : Action),
      s.step ≤ (stepAction s a).step ∧
      (stepAction s a).step ≤ s.step + 1 ∧
      ((stepAction s a).step ≠ s.step →
        a = Action.clickContinue true ∧ continueEnabled s = true ∧
          (stepAction s a).step = s.step + 1) ∧
      (∀ ok, s.step = 0 → (s.consentData && s.consentTerms) = false →
        stepAction s (Action.clickContinue ok) = s) ∧
      (s.step ≤ 4 → (stepAction s a).step ≤ 4) := by
  intro s a
  have h := stepAction_step_eq s a
  refine ⟨?_, ?_, ?_, ?_, ?_⟩
  · rcases h with h | ⟨_, _, h3⟩
    · exact le_of_eq h.symm
    · rw [h3]; exact Nat.le_succ _
  · rcases h with h | ⟨_, _, h3⟩
    · rw [h]; exact Nat.le_succ _
    · rw [h3]
  · intro hne
    rcases h with h | hh
    · exact absurd h hne
    · exact hh
  · intro ok h0 hcc
    have hen : continueEnabled s = false := by
      simp [continueEnabled, h0, hcc]
    simp [stepAction, hen]
  · intro h4
    rcases h with h | ⟨_, hen, h3⟩
    · rw [h]; exact h4
    · have hle : s.step ≤ 3 := by
        by_contra hgt
        have hf := continueEnabled_false_of_ge s (by omega)
        rw [hf] at hen
        cases hen
      rw [h3]; omega

/-- Witness for C5 at a concrete state and action. -/
theorem wizard_linear_forward_witness :
    stepAction initialWizard (Action.clickContinue true) = initialWizard :=
  (wizard_linear_forward initialWizard (Action.clickContinue true)).2.2.2.1
    true rfl rfl

end Onboarding

namespace Home

theorem completedSteps_le_foldl (acts : List RunAct) :
    ∀ r : RunState, r.completedSteps ≤ (acts.foldl runStep r).completedSteps := by
  induction acts with
  | nil => intro r; exact le_refl _
  | cons a l ih =>
      intro r
      have h1 : r.completedSteps ≤ (runStep r a).completedSteps := by
        cases a; exact Nat.le_succ _
      exact le_trans h1 (ih (runStep r a))

/-- C6: a user who has not reached First Win cannot view the home
dashboard: whenever the onboarding state has no first_win_completed_at
timestamp and current_step is not "completed", the home page redirects to
/onboarding and fetches neither the forecast nor the recommendations; and
(modelled from the spec) First Win is reached only after completing at
least one guided action step. -/
theorem home_requires_first_win :
    (∀ st : OnbState, jsTruthy st.first_win_completed_at = false →
      st.current_step ≠ "completed" →
      (homeLoad st).1 = HomeAction.redirectOnboarding ∧
      "/forecast/latest" ∉ (homeLoad st).2 ∧
      "/cheat-codes/recommendations" ∉ (homeLoad st).2) ∧
    (∀ acts : List RunAct,
      (acts.foldl runStep initRun).firstWin = true →
      1 ≤ (acts.foldl runStep initRun).completedSteps) := by
  constructor
  · intro st h1 h2
    have hcond : (!jsTruthy st.first_win_completed_at &&
        (st.current_step != "completed")) = true := by
      simp [h1, bne_iff_ne, h2]
    refine ⟨?_, ?_, ?_⟩ <;> simp [homeLoad, hcond]
  · intro acts hfw
    cases acts with
    | nil => cases hfw
    | cons a l =>
        have h1 : 1 ≤ (runStep initRun a).completedSteps := by
          cases a; exact le_refl 1
        calc 1 ≤ (runStep initRun a).completedSteps := h1
          _ ≤ ((a :: l).foldl runStep initRun).completedSteps := by
              rw [List.foldl_cons]
              exact completedSteps_le_foldl l (runStep initRun a)

/-- Witness for C6 at a concrete onboarding state. -/
theorem home_requires_first_win_witness :
    (homeLoad { first_win_completed_at := none, current_step := "top_3" }).1 =
      HomeAction.redirectOnboarding :=
  (home_requires_first_win.1
    { first_win_completed_at := none, current_step := "top_3" } rfl (by decide)).1

end Home

namespace Middleware

/-- C7: an unauthenticated request never reaches a protected route: every
request to /home, /settings, /onboarding or any /cheat/ path with no
session_token cookie is answered with a redirect to /login; with the cookie
present the request proceeds unchanged. -/
theorem protected_routes_require_token :
    ∀ (path : String) (cookies : List (String × String)),
      (path = "/home" ∨ path = "/settings" ∨ path = "/onboarding" ∨
        path.startsWith "/cheat/" = true) →
      ((List.lookup "session_token" cookies = none →
        handleRequest { path := path, cookies := cookies } =
          MwResult.redirect "/login") ∧
       (∀ v, List.lookup "session_token" cookies = some v →
        handleRequest { path := path, cookies := cookies } = MwResult.next)) := by
  intro path cookies hpath
  have hmatch : matchesConfig path = true := by
    rcases hpath with h | h | h | h
    · subst h; decide
    · subst h; decide
    · subst h; decide
    · simp [matchesConfig, h]
  constructor
  · intro hnone
    simp [handleRequest, hmatch, middleware, hnone]
  · intro v hv
    simp [handleRequest, hmatch, middleware, hv]

/-- Witness for C7 at a concrete request. -/
theorem protected_routes_require_token_witness :
    handleRequest { path := "/home", cookies := [] } = MwResult.redirect "/login" :=
  (protected_routes_require_token "/home" [] (Or.inl rfl)).1 rfl

end Middleware

namespace Api

/-- C10: session-token storage round-trips: after setToken(t) with a
non-empty t, hasToken() is true and getToken() yields t; after clearToken()
hasToken() is false and the request function sends no X-Session-Token
header. -/
theorem token_roundtrip :
    ∀ (s : ClientState) (t : String), t ≠ "" → s.windowDefined = true →
      hasToken (setToken t s) = true ∧
      getToken (setToken t s) = some t ∧
      hasToken (clearToken s) = false ∧
      List.lookup "X-Session-Token" (requestHeaders (clearToken s)) = none := by
  intro s t ht hw
  refine ⟨?_, ?_, ?_, ?_⟩
  · simp [hasToken, getToken, setToken, jsTruthy, hw, bne_iff_ne, ht]
  · simp [getToken, setToken, hw]
  · simp [hasToken, getToken, clearToken, jsTruthy, hw]
  · simp [requestHeaders, getToken, clearToken, jsTruthy, hw]

/-- Witness for C10 at a concrete state and token. -/
theorem token_roundtrip_witness :
    hasToken (setToken "tok"
      { windowDefined := true, localStore := none, cookie := none }) = true :=
  (token_roundtrip { windowDefined := true, localStore := none, cookie := none }
    "tok" (by decide) rfl).1

/-- C8 counterexample: not every value thrown by the request function
satisfies isApiError: a 200 response without a valid JSON body makes the
request function throw the exception of res.json(), a SyntaxError object
with no status field, which isApiError rejects. -/
theorem request_throw_not_apiError :
    isThrow (request { status := 200, headers := [], body := none }) = true ∧
    isApiError (syntaxErrorToJs "Unexpected end of JSON input" "") = false :=
  ⟨rfl, rfl⟩

/-- C8 (amended): every ApiError thrown by the request function satisfies
isApiError: the network-failure branch constructs an object with status 0
and null requestId, every thrown ApiError denotes an object with message,
requestId and status fields, and isApiError accepts every object that has
message and status fields; the one throw that is not an ApiError, the
SyntaxError propagated from res.json(), has no status field and never
satisfies isApiError. -/
theorem thrown_values_satisfy_isApiError :
    (∀ (lh : Bool) (f : FetchOutcome) (e : ApiError),
      requestRun lh f = RequestResult.apiError e →
      isApiError (apiErrorToJs e) = true) ∧
    (∀ lh : Bool, ∃ e : ApiError,
      requestRun lh FetchOutcome.networkFailure = RequestResult.apiError e ∧
      e.status = 0 ∧ e.requestId = none) ∧
    (∀ fields : List (String × JsValue),
      hasField fields "message" = true → hasField fields "status" = true →
      isApiError (JsValue.obj fields) = true) ∧
    (∀ msg stack : String,
      isApiError (syntaxErrorToJs msg stack) = false) := by
  refine ⟨?_, ?_, ?_, ?_⟩
  · intro lh f e _
    simp [isApiError, apiErrorToJs, hasField]
  · intro lh
    exact ⟨_, rfl, rfl, rfl⟩
  · intro fields h1 h2
    simp [isApiError, h1, h2]
  · intro msg stack
    rfl

/-- Witness for C8 at a concrete thrown error. -/
theorem thrown_values_satisfy_isApiError_witness :
    isApiError (apiErrorToJs
      { message := "Cannot reach the server.", requestId := none, status := 0 }) =
      true :=
  thrown_values_satisfy_isApiError.1 false FetchOutcome.networkFailure
    { message := "Cannot reach the server.", requestId := none, status := 0 }
    (by decide)

/-- C4 counterexample: the claim states that for 2xx responses no error is
thrown, but a 200 response whose body is not valid JSON makes res.json()
throw, and the request function does not catch that exception. -/
theorem request_2xx_can_throw :
    resOk 200 = true ∧
    isThrow (request { status := 200, headers := [], body := none }) = true :=
  ⟨rfl, rfl⟩

/-- C4 (amended): for every response with a non-2xx status the request
function throws an ApiError whose status equals the HTTP status, whose
requestId is the x-request-id header value, falling back to X-Request-ID
and then to null, and whose message is the detail field of the error
envelope, falling back to the message field and then to the default
Request failed (<status>); for 2xx responses no ApiError is thrown, and a
2xx response throws at all only when it is not 204 and has no valid JSON
body (the propagated JSON parse error). -/
theorem request_error_contract :
    ∀ resp : HttpResponse,
      (resOk resp.status = false →
        ∃ e : ApiError, request resp = RequestResult.apiError e ∧
          e.status = resp.status ∧
          (resp.body = none → e.message = defaultErrMessage resp.status) ∧
          (∀ b d, resp.body = some b → b.detail = some d → d ≠ "" →
            e.message = d) ∧
          (∀ b m, resp.body = some b → b.detail = none → b.message = some m →
            m ≠ "" → e.message = m) ∧
          (List.lookup "x-request-id" resp.headers = none →
            List.lookup "X-Request-ID" resp.headers = none →
            e.requestId = none) ∧
          (∀ v, List.lookup "x-request-id" resp.headers = some v → v ≠ "" →
            e.requestId = some v) ∧
          (∀ v, List.lookup "x-request-id" resp.headers = none →
            List.lookup "X-Request-ID" resp.headers = some v →
            e.requestId = some v)) ∧
      (resOk resp.status = true →
        (∀ e, request resp ≠ RequestResult.apiError e) ∧
        (resp.status = 204 ∨ resp.body ≠ none →
          isThrow (request resp) = false)) := by
  intro resp
  constructor
  · intro hnot
    have hreq : request resp = RequestResult.apiError
        { message := errMessage resp.status resp.body
          requestId := responseRequestId resp.headers
          status := resp.status } := by
      simp [request, hnot]
    refine ⟨_, hreq, rfl, ?_, ?_, ?_, ?_, ?_, ?_⟩
    · intro hb
      simp [errMessage, hb]
    · intro b d hb hd hdne
      have hbne : (d != "") = true := by simpa [bne_iff_ne] using hdne
      simp [errMessage, hb, hd, jsStrOr, jsTruthy, hbne]
    · intro b m hb hd hm hmne
      have hbne : (m != "") = true := by simpa [bne_iff_ne] using hmne
      simp [errMessage, hb, hd, hm, jsStrOr, jsTruthy, hbne]
    · intro h1 h2
      simp [responseRequestId, jsStrOr, jsTruthy, h1, h2]
    · intro v hv hvne
      have hbne : (v != "") = true := by simpa [bne_iff_ne] using hvne
      simp [responseRequestId, jsStrOr, jsTruthy, hv, hbne]
    · intro v h1 h2
      simp [responseRequestId, jsStrOr, jsTruthy, h1, h2]
  · intro hok
    constructor
    · intro e heq
      by_cases h204 : resp.status = 204
      · rw [h204] at hok
        simp [request, hok, h204] at heq
      · cases hb : resp.body with
        | none => simp [request, hok, h204, hb] at heq
        | some b => simp [request, hok, h204, hb] at heq
    · intro hor
      by_cases h204 : resp.status = 204
      · rw [h204] at hok
        simp [request, hok, h204, isThrow]
      · rcases hor with h | hbody
        · exact absurd h h204
        · cases hb : resp.body with
          | none => exact absurd hb hbody
          | some b => simp [request, hok, h204, hb, isThrow]

/-- Witness for C4 at a concrete non-2xx response. -/
theorem request_error_contract_witness :
    ∃ e : ApiError,
      request { status := 404, headers := [("x-request-id", "abc")],
                body := some { detail := some "Not found", message := none } } =
        RequestResult.apiError e ∧ e.status = 404 ∧ e.message = "Not found" ∧
        e.requestId = some "abc" := by
  obtain ⟨e, h1, h2, h3, h4, h5, h6, h7, h8⟩ :=
    (request_error_contract
      { status := 404, headers := [("x-request-id", "abc")],
        body := some { detail := some "Not found", message := none } }).1 rfl
  exact ⟨e, h1, h2,
    h4 { detail := some "Not found", message := none } "Not found" rfl rfl
      (by decide),
    h7 "abc" rfl (by decide)⟩

end Api

namespace SampleTxns

/-- C9: for every account id, buildTransactionPayload returns exactly ten
payloads, one per entry of SAMPLE_TRANSACTIONS in the same order, each with
account_id the given id, currency USD, and raw_description, amount and
transaction_type copied unchanged from the corresponding sample entry. -/
theorem buildTransactionPayload_spec :
    ∀ (now : Int) (aid : String),
      SAMPLE_TRANSACTIONS.length = 10 ∧
      (buildTransactionPayload now aid).length = 10 ∧
      ∀ i, i < 10 →
        ((buildTransactionPayload now aid).get? i).map TxnPayload.account_id =
          some aid ∧
        ((buildTransactionPayload now aid).get? i).map TxnPayload.currency =
          some "USD" ∧
        ((buildTransactionPayload now aid).get? i).map TxnPayload.raw_description =
          (SAMPLE_TRANSACTIONS.get? i).map SampleTxn.raw_description ∧
        ((buildTransactionPayload now aid).get? i).map TxnPayload.amount =
          (SAMPLE_TRANSACTIONS.get? i).map SampleTxn.amount ∧
        ((buildTransactionPayload now aid).get? i).map TxnPayload.transaction_type =
          (SAMPLE_TRANSACTIONS.get? i).map SampleTxn.transaction_type := by
  intro now aid
  refine ⟨rfl, rfl, ?_⟩
  intro i hi
  interval_cases i <;> exact ⟨rfl, rfl, rfl, rfl, rfl⟩

/-- Witness for C9 at a concrete account id and index. -/
theorem buildTransactionPayload_spec_witness :
    ((buildTransactionPayload 0 "acct-1").get? 0).map TxnPayload.currency =
      some "USD" :=
  ((buildTransactionPayload_spec 0 "acct-1").2.2 0 (by decide)).2.1

end SampleTxns
